import Mathlib

/-!
Shallow embedding of the joe-learn backend (src/server.js together with the
Cloudinary/Firebase configuration modules) and proofs about the behaviour of
its HTTP handlers: signature generation, video/assessment metadata records,
counter increments, listing order, deletion, and error propagation.
-/

namespace JoeLearn

/-- JavaScript runtime values as they occur in request bodies and stored
documents: `undefined`, `null`, booleans, (integer) numbers, `NaN`, strings. -/
inductive JSValue where
  | undef
  | null
  | boolean (b : Bool)
  | num (n : Int)
  | nan
  | str (s : String)
deriving DecidableEq, Repr

/-- JavaScript truthiness: `undefined`, `null`, `false`, `0`, `NaN` and the
empty string are falsy, everything else is truthy.  This is the semantics of
the `!field` checks and the `if (public_id)` guard in src/server.js. -/
def truthy : JSValue → Bool
  | .undef => false
  | .null => false
  | .boolean b => b
  | .num n => n != 0
  | .nan => false
  | .str s => !s.isEmpty

/-- Reading key `k` from a JavaScript object literal written as a sequence of
key/value bindings (later bindings override earlier ones, as in
`{timestamp: t, ...req.body}`).  Returns `undefined` for an absent key. -/
def objGet (k : String) (l : List (String × JSValue)) : JSValue :=
  l.foldl (fun acc p => if p.1 = k then p.2 else acc) JSValue.undef

/-- The keys of a JavaScript object built from the binding list, first
occurrence order, each key once. -/
def objKeys : List (String × JSValue) → List String
  | [] => []
  | p :: rest => p.1 :: (objKeys rest).filter (fun k => k ≠ p.1)

/-- The canonical entry list of the object: each key once, in first-occurrence
order, carrying the value of its last binding. -/
def objEntries (l : List (String × JSValue)) : List (String × JSValue) :=
  (objKeys l).map (fun k => (k, objGet k l))

/-- Cloudinary cloud name, hardcoded in cloudinaryConfig.js. -/
def cloud_name : String := "dszqqhrjv"

/-- Cloudinary API key, hardcoded in cloudinaryConfig.js. -/
def api_key : String := "593179499237439"

/-- Cloudinary API secret, hardcoded in cloudinaryConfig.js. -/
def api_secret : String := "4SN0tLHVVGP3b3C_KbUhM1sBOf4"

/-- The sixteen lowercase hexadecimal digit characters. -/
def hexChars : List Char := "0123456789abcdef".data

/-- Whether a character is a lowercase hexadecimal digit. -/
def isHexChar (c : Char) : Bool := decide (c ∈ hexChars)

/-- The hexadecimal digit character for `n % 16`. -/
def hexDigitChar (n : Nat) : Char := hexChars.getD (n % 16) '0'

/-- Big-endian hexadecimal rendering of a natural number, fuelled. -/
def natToHexAux : Nat → Nat → List Char → List Char
  | 0, _, acc => acc
  | fuel + 1, n, acc =>
      if n = 0 then acc else natToHexAux fuel (n / 16) (hexDigitChar (n % 16) :: acc)

/-- Hexadecimal rendering of a natural number. -/
def natToHex (n : Nat) : String := String.mk (natToHexAux 40 n [])

/-- Modelled from the spec: the hash primitive of the storage provider's
signing algorithm (the Cloudinary SDK's digest, external to this repository).
§4.1 only requires a deterministic hash producing a hexadecimal digest; we
model it as a concrete rolling hash rendered in hexadecimal. -/
def digestHex (s : String) : String :=
  natToHex (s.data.foldl (fun a c => (a * 131 + c.toNat) % (2 ^ 160)) 7)

/-- String rendering of a JavaScript value as it would appear in a query
serialization. -/
def jsValueToString : JSValue → String
  | .undef => "undefined"
  | .null => "null"
  | .boolean b => if b then "true" else "false"
  | .num n => toString n
  | .nan => "NaN"
  | .str s => s

/-- Insert an entry into a key-sorted entry list (ascending key order). -/
def insertKeyAsc (p : String × JSValue) : List (String × JSValue) → List (String × JSValue)
  | [] => [p]
  | q :: l => if q.1 < p.1 then q :: insertKeyAsc p l else p :: q :: l

/-- Sort an entry list by key, ascending. -/
def sortKeysAsc : List (String × JSValue) → List (String × JSValue)
  | [] => []
  | p :: l => insertKeyAsc p (sortKeysAsc l)

/-- Concatenate `key=value` entries joined by `&`. -/
def serializeEntries : List (String × JSValue) → String
  | [] => ""
  | [p] => p.1 ++ "=" ++ jsValueToString p.2
  | p :: q :: rest => p.1 ++ "=" ++ jsValueToString p.2 ++ "&" ++ serializeEntries (q :: rest)

/-- Modelled from the spec: `cloudinary.utils.api_sign_request` (external SDK
code, not in this repository).  §4.1: concatenate the sorted `key=value`
parameters including `timestamp`, append the secret, hash. -/
def api_sign_request (params : List (String × JSValue)) (secret : String) : String :=
  digestHex (serializeEntries (sortKeysAsc (objEntries params)) ++ secret)

/-- The parameter object the POST /api/generate-signature handler signs:
`{ timestamp: timestamp, ...req.body }` (src/server.js line 43).  The spread
comes after the `timestamp` binding, so a client-supplied `timestamp` binding
overrides the server-generated one. -/
def paramsToSign (now : Int) (body : List (String × JSValue)) : List (String × JSValue) :=
  ("timestamp", JSValue.num now) :: body

/-- The value of `timestamp` inside the signed parameter set. -/
def signedTimestamp (now : Int) (body : List (String × JSValue)) : JSValue :=
  objGet "timestamp" (paramsToSign now body)

/-- Response of the signature endpoint: either the success JSON object with
exactly the fields `signature`, `timestamp`, `api_key`, `cloud_name`, or the
failure JSON object with only a `message` field. -/
inductive SigResponse where
  | success (signature : String) (timestamp : Int) (apiKey : String) (cloudName : String)
  | failure (message : String)
deriving DecidableEq, Repr

/-- The string-valued fields of a signature response body (the `timestamp`
field is numeric and cannot carry the secret). -/
def respStrings : SigResponse → List String
  | .success sig _ ak cn => [sig, ak, cn]
  | .failure m => [m]

/-- The POST /api/generate-signature handler (src/server.js lines 39-60).
`now` is `Math.round(Date.now()/1000)`; `fails` models whether the external
SDK call `cloudinary.utils.api_sign_request` throws (the `catch` branch). -/
def generateSignature (now : Int) (body : List (String × JSValue)) (fails : Bool) :
    Nat × SigResponse :=
  if fails then
    (500, SigResponse.failure "Could not generate upload signature.")
  else
    (200, SigResponse.success (api_sign_request (paramsToSign now body) api_secret)
      now api_key cloud_name)

/-- A stored video document (the fields written by POST /api/upload-video,
src/server.js lines 85-95).  `views` and `completions` are numbers; `createdAt`
is the store-assigned server timestamp, modelled as a natural number. -/
structure VideoDoc where
  title : JSValue
  subject : JSValue
  teacher : JSValue
  url : JSValue
  public_id : JSValue
  duration : JSValue
  views : Int
  completions : Int
  createdAt : Nat
deriving DecidableEq, Repr

/-- A stored assessment document (the fields written by
POST /api/upload-assessment, src/server.js lines 157-163). -/
structure AssessmentDoc where
  title : JSValue
  teacher : JSValue
  url : JSValue
  public_id : JSValue
  createdAt : Nat
deriving DecidableEq, Repr

/-- The Firestore-backed server state: the two collections, each a list of
(document id, document) pairs. -/
structure ServerState where
  videos : List (String × VideoDoc)
  assessments : List (String × AssessmentDoc)
deriving DecidableEq, Repr

/-- The request body of POST /api/upload-video as destructured by the handler
(src/server.js line 80); absent fields read as `undefined`. -/
structure VideoBody where
  title : JSValue
  teacherName : JSValue
  subject : JSValue
  url : JSValue
  public_id : JSValue
  duration : JSValue
deriving DecidableEq, Repr

/-- The required-field rejection condition of POST /api/upload-video
(src/server.js line 81): `!title || !teacherName || !subject || !url ||
!public_id || duration === undefined`. -/
def videoBodyRejected (b : VideoBody) : Bool :=
  !truthy b.title || !truthy b.teacherName || !truthy b.subject || !truthy b.url ||
    !truthy b.public_id || b.duration == JSValue.undef

/-- The document POST /api/upload-video writes on success (src/server.js
lines 85-95): field-for-field from the body, `teacher` from `teacherName`,
counters initialized to 0, `createdAt` the store's server timestamp. -/
def mkVideoDoc (b : VideoBody) (now : Nat) : VideoDoc :=
  { title := b.title
    subject := b.subject
    teacher := b.teacherName
    url := b.url
    public_id := b.public_id
    duration := b.duration
    views := 0
    completions := 0
    createdAt := now }

/-- Result of a create endpoint: HTTP status, resulting state, and the created
(id, document) pair returned in the 201 body (none on rejection). -/
structure CreateResult where
  status : Nat
  state : ServerState
  created : Option (String × VideoDoc)
deriving DecidableEq, Repr

/-- The POST /api/upload-video handler (src/server.js lines 78-106).  `newId`
is the fresh document id assigned by the store's `add`; `now` the server
timestamp. -/
def uploadVideo (st : ServerState) (b : VideoBody) (newId : String) (now : Nat) :
    CreateResult :=
  if videoBodyRejected b then
    { status := 400, state := st, created := none }
  else
    let doc := mkVideoDoc b now
    { status := 201
      state := { st with videos := st.videos ++ [(newId, doc)] }
      created := some (newId, doc) }

/-- The request body of POST /api/upload-assessment as destructured by the
handler (src/server.js line 153). -/
structure AssessmentBody where
  title : JSValue
  teacherName : JSValue
  url : JSValue
  public_id : JSValue
deriving DecidableEq, Repr

/-- Result of the assessment create endpoint. -/
structure AssessmentCreateResult where
  status : Nat
  state : ServerState
  created : Option (String × AssessmentDoc)
deriving DecidableEq, Repr

/-- The POST /api/upload-assessment handler (src/server.js lines 151-171). -/
def uploadAssessment (st : ServerState) (b : AssessmentBody) (newId : String) (now : Nat) :
    AssessmentCreateResult :=
  if !truthy b.title || !truthy b.teacherName || !truthy b.url || !truthy b.public_id then
    { status := 400, state := st, created := none }
  else
    let doc : AssessmentDoc :=
      { title := b.title, teacher := b.teacherName, url := b.url,
        public_id := b.public_id, createdAt := now }
    { status := 201
      state := { st with assessments := st.assessments ++ [(newId, doc)] }
      created := some (newId, doc) }

/-- A store-level error: Firestore's NOT_FOUND failure of `update` on a
missing document, carrying the internal detail message. -/
inductive StoreErr where
  | notFound (detail : String)
deriving DecidableEq, Repr

/-- The internal detail message of a store error. -/
def errDetail : StoreErr → String
  | .notFound d => d

/-- The detail text of Firestore's NOT_FOUND error for `update` on a missing
document of a collection. -/
def notFoundDetail (collection docId : String) : String :=
  "5 NOT_FOUND: No document to update: " ++ collection ++ "/" ++ docId

/-- The response of the global error handler (src/server.js lines 224-227):
a generic 500 with a constant message, whatever the error was. -/
def genericErrorMessage : String :=
  "An internal server error occurred. Please check the server logs for details."

/-- The global error handler (src/server.js lines 224-227). -/
def globalErrorHandler (_ : StoreErr) : Nat × String := (500, genericErrorMessage)

/-- Firestore `update` on `videos/id`: applies `f` to the matching document,
fails with NOT_FOUND if no document has that id (the handler does not
pre-check existence). -/
def updateVideoDocs (videos : List (String × VideoDoc)) (id : String)
    (f : VideoDoc → VideoDoc) : Except StoreErr (List (String × VideoDoc)) :=
  if videos.any (fun p => p.1 == id) then
    Except.ok (videos.map (fun p => if p.1 == id then (p.1, f p.2) else p))
  else
    Except.error (StoreErr.notFound (notFoundDetail "videos" id))

/-- Result of an acknowledgement endpoint: status, message body, state. -/
structure AckResult where
  status : Nat
  message : String
  state : ServerState
deriving DecidableEq, Repr

/-- The POST /api/videos/:id/view handler (src/server.js lines 109-119):
`update({views: FieldValue.increment(1)})`; a store error goes through
`next(error)` to the global error handler. -/
def postView (st : ServerState) (id : String) : AckResult :=
  match updateVideoDocs st.videos id (fun v => { v with views := v.views + 1 }) with
  | .ok docs =>
      { status := 200, message := "View count updated successfully.",
        state := { st with videos := docs } }
  | .error e =>
      { status := (globalErrorHandler e).1, message := (globalErrorHandler e).2, state := st }

/-- The POST /api/videos/:id/complete handler (src/server.js lines 122-133). -/
def postComplete (st : ServerState) (id : String) : AckResult :=
  match updateVideoDocs st.videos id (fun v => { v with completions := v.completions + 1 }) with
  | .ok docs =>
      { status := 200, message := "Completion count updated successfully.",
        state := { st with videos := docs } }
  | .error e =>
      { status := (globalErrorHandler e).1, message := (globalErrorHandler e).2, state := st }

/-- Insert an element into a list kept in descending `key` order (the larger
key stays in front; equal keys keep the earlier element first). -/
def insertDesc {α : Type} (key : α → Nat) (a : α) : List α → List α
  | [] => [a]
  | b :: l => if key a ≤ key b then b :: insertDesc key a l else a :: b :: l

/-- Insertion sort into descending `key` order: the semantics of Firestore's
`orderBy(field, 'desc')` query over a collection. -/
def sortDesc {α : Type} (key : α → Nat) : List α → List α
  | [] => []
  | a :: l => insertDesc key a (sortDesc key l)

/-- The GET /api/videos handler (src/server.js lines 66-75): all documents of
the `videos` collection ordered by `createdAt` descending, each as
`{id, ...data}`, with status 200. -/
def getVideos (st : ServerState) : Nat × List (String × VideoDoc) :=
  (200, sortDesc (fun p => p.2.createdAt) st.videos)

/-- The GET /api/assessments handler (src/server.js lines 139-148). -/
def getAssessments (st : ServerState) : Nat × List (String × AssessmentDoc) :=
  (200, sortDesc (fun p => p.2.createdAt) st.assessments)

/-- Result of DELETE /api/assessments/:id: status, message body, resulting
state, and the list of `cloudinary.uploader.destroy(public_id, {resource_type})`
calls performed. -/
structure DeleteResult where
  status : Nat
  message : String
  state : ServerState
  destroyCalls : List (JSValue × String)
deriving DecidableEq, Repr

/-- The DELETE /api/assessments/:id handler (src/server.js lines 193-218):
404 if the document does not exist; otherwise destroy the stored object on
Cloudinary — only when the document's `public_id` is truthy — then delete the
document and answer 200. -/
def deleteAssessment (st : ServerState) (id : String) : DeleteResult :=
  match st.assessments.find? (fun p => p.1 == id) with
  | none =>
      { status := 404, message := "Assessment not found.", state := st, destroyCalls := [] }
  | some (_, doc) =>
      { status := 200
        message := "Assessment deleted successfully."
        state := { st with assessments := st.assessments.filter (fun p => p.1 != id) }
        destroyCalls := if truthy doc.public_id then [(doc.public_id, "raw")] else [] }

/-- A counter-increment request against a video: POST /videos/:id/view or
POST /videos/:id/complete. -/
inductive CounterOp where
  | view
  | complete
deriving DecidableEq, Repr

/-- Apply one counter-increment request to the state. -/
def applyOp (st : ServerState) (id : String) : CounterOp → ServerState
  | .view => (postView st id).state
  | .complete => (postComplete st id).state

/-- Apply a sequence of counter-increment requests to the state, in order. -/
def applyOps (st : ServerState) (id : String) : List CounterOp → ServerState
  | [] => st
  | op :: rest => applyOps (applyOp st id op) id rest

/-- How many of the requests in the sequence are view increments. -/
def countViews (l : List CounterOp) : Nat :=
  (l.filter (fun o => o == CounterOp.view)).length

/-- How many of the requests in the sequence are completion increments. -/
def countCompletes (l : List CounterOp) : Nat :=
  (l.filter (fun o => o == CounterOp.complete)).length

/-- Whether the character list `pat` occurs at the start of `l`. -/
def leadsWith : List Char → List Char → Bool
  | [], _ => true
  | _ :: _, [] => false
  | a :: pat, b :: l => a == b && leadsWith pat l

/-- Whether the character list `pat` occurs contiguously anywhere in `l`:
the substring test used to state that a response does not leak a string. -/
def occursIn (pat : List Char) : List Char → Bool
  | [] => leadsWith pat []
  | b :: rest => leadsWith pat (b :: rest) || occursIn pat rest

/-! Helper lemmas. -/

/-- Inserting into a descending-order list is a permutation of consing. -/
theorem insertDesc_perm {α : Type} (key : α → Nat) (a : α) (l : List α) :
    List.Perm (insertDesc key a l) (a :: l) := by
  induction l with
  | nil => simp [insertDesc]
  | cons b l ih =>
      rw [insertDesc]
      split
      · exact (ih.cons b).trans (List.Perm.swap a b l)
      · exact List.Perm.refl _

/-- Sorting is a permutation of the input. -/
theorem sortDesc_perm {α : Type} (key : α → Nat) (l : List α) :
    List.Perm (sortDesc key l) l := by
  induction l with
  | nil => exact List.Perm.refl _
  | cons a l ih => exact (insertDesc_perm key a _).trans (ih.cons a)

/-- Membership in an insertion. -/
theorem mem_insertDesc {α : Type} (key : α → Nat) (a x : α) (l : List α) :
    x ∈ insertDesc key a l ↔ x = a ∨ x ∈ l := by
  have h := (insertDesc_perm key a l).mem_iff (a := x)
  simpa using h

/-- Insertion preserves descending order. -/
theorem pairwise_insertDesc {α : Type} (key : α → Nat) (a : α) (l : List α)
    (h : List.Pairwise (fun x y => key y ≤ key x) l) :
    List.Pairwise (fun x y => key y ≤ key x) (insertDesc key a l) := by
  induction l with
  | nil => simp [insertDesc]
  | cons b l ih =>
      rw [List.pairwise_cons] at h
      obtain ⟨hb, hl⟩ := h
      by_cases hab : key a ≤ key b
      · rw [insertDesc, if_pos hab, List.pairwise_cons]
        refine ⟨?_, ih hl⟩
        intro x hx
        rcases (mem_insertDesc key a x l).1 hx with rfl | hxl
        · exact hab
        · exact hb x hxl
      · rw [insertDesc, if_neg hab, List.pairwise_cons]
        refine ⟨?_, List.pairwise_cons.2 ⟨hb, hl⟩⟩
        intro x hx
        rcases List.mem_cons.1 hx with rfl | hxl
        · omega
        · exact le_trans (hb x hxl) (by omega)

/-- The sorted list is in descending key order. -/
theorem pairwise_sortDesc {α : Type} (key : α → Nat) (l : List α) :
    List.Pairwise (fun x y => key y ≤ key x) (sortDesc key l) := by
  induction l with
  | nil => simp [sortDesc]
  | cons a l ih => exact pairwise_insertDesc key a _ ih

/-- A successful `find?` over an association list implies `any`. -/
theorem find?_imp_any {α : Type} {l : List (String × α)} {id : String} {e : String × α}
    (h : l.find? (fun p => p.1 == id) = some e) :
    l.any (fun p => p.1 == id) = true := by
  have h1 := List.find?_some h
  have h2 := List.mem_of_find?_eq_some h
  exact List.any_eq_true.2 ⟨e, h2, h1⟩

/-- Records created through POST /api/upload-assessment always carry a truthy
`public_id` (the handler rejects falsy ones), supporting the §3 data-model
invariant that `public_id` is required and non-empty on every stored
assessment record. -/
theorem uploadAssessment_created_public_id_truthy (st : ServerState) (b : AssessmentBody)
    (newId : String) (now : Nat) (i : String) (d : AssessmentDoc)
    (h : (uploadAssessment st b newId now).created = some (i, d)) :
    truthy d.public_id = true := by
  rw [uploadAssessment] at h
  cases hp : truthy b.public_id with
  | false =>
      rw [if_pos (by simp [hp])] at h
      simp at h
  | true =>
      by_cases hrej : (!truthy b.title || !truthy b.teacherName || !truthy b.url ||
          !truthy b.public_id) = true
      · rw [if_pos hrej] at h
        simp at h
      · rw [if_neg hrej] at h
        simp at h
        obtain ⟨-, rfl⟩ := h
        exact hp

/-- C5: a DELETE /api/assessments/:id whose id matches no assessment document
answers 404, leaves the state unchanged, and performs no storage-provider
destroy call. -/
theorem c5_delete_missing_is_404_no_change (st : ServerState) (id : String)
    (h : st.assessments.find? (fun p => p.1 == id) = none) :
    (deleteAssessment st id).status = 404 ∧
    (deleteAssessment st id).state = st ∧
    (deleteAssessment st id).destroyCalls = [] := by
  simp [deleteAssessment, h]

/-- C5 witness: deleting id "x" from the empty store. -/
theorem c5_witness :
    (deleteAssessment ⟨[], []⟩ "x").status = 404 ∧
    (deleteAssessment ⟨[], []⟩ "x").state = ⟨[], []⟩ ∧
    (deleteAssessment ⟨[], []⟩ "x").destroyCalls = [] :=
  c5_delete_missing_is_404_no_change ⟨[], []⟩ "x" rfl

/-- C10: a DELETE /api/assessments/:id whose id matches a document with a
falsy `public_id` skips the Cloudinary destroy call entirely, still deletes
the metadata record, and answers 200. -/
theorem c10_delete_falsy_public_id_skips_destroy (st : ServerState) (id : String)
    (d : AssessmentDoc)
    (hfind : st.assessments.find? (fun p => p.1 == id) = some (id, d))
    (hfalsy : truthy d.public_id = false) :
    (deleteAssessment st id).status = 200 ∧
    (deleteAssessment st id).destroyCalls = [] ∧
    (deleteAssessment st id).state.assessments = st.assessments.filter (fun p => p.1 != id) ∧
    (deleteAssessment st id).state.videos = st.videos := by
  simp [deleteAssessment, hfind, hfalsy]

/-- C10 witness: a stored assessment whose `public_id` is the empty string. -/
theorem c10_witness :
    (deleteAssessment ⟨[], [("a1", ⟨.str "T", .str "L", .str "u", .str "", 7⟩)]⟩ "a1").status = 200 ∧
    (deleteAssessment ⟨[], [("a1", ⟨.str "T", .str "L", .str "u", .str "", 7⟩)]⟩ "a1").destroyCalls = [] ∧
    (deleteAssessment ⟨[], [("a1", ⟨.str "T", .str "L", .str "u", .str "", 7⟩)]⟩ "a1").state.assessments =
      ([("a1", (⟨.str "T", .str "L", .str "u", .str "", 7⟩ : AssessmentDoc))].filter (fun p => p.1 != "a1")) ∧
    (deleteAssessment ⟨[], [("a1", ⟨.str "T", .str "L", .str "u", .str "", 7⟩)]⟩ "a1").state.videos = [] :=
  c10_delete_falsy_public_id_skips_destroy
    ⟨[], [("a1", ⟨.str "T", .str "L", .str "u", .str "", 7⟩)]⟩ "a1"
    ⟨.str "T", .str "L", .str "u", .str "", 7⟩ (by decide) (by decide)

/-- C3: a DELETE /api/assessments/:id whose id matches a stored assessment
document (well-formed per the §3 data model, i.e. its `public_id` is a
non-empty string) answers 200, performs exactly one Cloudinary destroy call
with that document's `public_id`, removes the document, and the id no longer
appears in subsequent GET /api/assessments results. -/
theorem c3_delete_existing_destroys_and_removes (st : ServerState) (id : String)
    (d : AssessmentDoc) (s : String)
    (hfind : st.assessments.find? (fun p => p.1 == id) = some (id, d))
    (hpid : d.public_id = JSValue.str s) (hs : s ≠ "") :
    (deleteAssessment st id).status = 200 ∧
    (deleteAssessment st id).destroyCalls = [(d.public_id, "raw")] ∧
    (deleteAssessment st id).state.assessments = st.assessments.filter (fun p => p.1 != id) ∧
    ∀ p ∈ (getAssessments (deleteAssessment st id).state).2, p.1 ≠ id := by
  have htruthy : truthy d.public_id = true := by
    cases hie : s.isEmpty with
    | false => rw [hpid]; simp [truthy, hie]
    | true => exact absurd ((String.isEmpty_iff s).1 hie) hs
  refine ⟨?_, ?_, ?_, ?_⟩
  · simp [deleteAssessment, hfind]
  · simp [deleteAssessment, hfind, htruthy]
  · simp [deleteAssessment, hfind]
  · intro p hp
    have hstate : (deleteAssessment st id).state.assessments =
        st.assessments.filter (fun p => p.1 != id) := by
      simp [deleteAssessment, hfind]
    rw [getAssessments, hstate] at hp
    have hmem := (sortDesc_perm (fun q => q.2.createdAt)
      (st.assessments.filter (fun p => p.1 != id))).mem_iff.1 hp
    have hne := (List.mem_filter.1 hmem).2
    simpa using hne

/-- C3 witness: deleting a concrete stored assessment with `public_id`
"joe-learn-assessments/abc123". -/
theorem c3_witness :
    (deleteAssessment ⟨[], [("a1", ⟨.str "Quiz 1", .str "Ms. Lee", .str "u",
        .str "joe-learn-assessments/abc123", 7⟩)]⟩ "a1").status = 200 ∧
    (deleteAssessment ⟨[], [("a1", ⟨.str "Quiz 1", .str "Ms. Lee", .str "u",
        .str "joe-learn-assessments/abc123", 7⟩)]⟩ "a1").destroyCalls =
      [((⟨.str "Quiz 1", .str "Ms. Lee", .str "u", .str "joe-learn-assessments/abc123", 7⟩ :
          AssessmentDoc).public_id, "raw")] ∧
    (deleteAssessment ⟨[], [("a1", ⟨.str "Quiz 1", .str "Ms. Lee", .str "u",
        .str "joe-learn-assessments/abc123", 7⟩)]⟩ "a1").state.assessments =
      ([("a1", (⟨.str "Quiz 1", .str "Ms. Lee", .str "u",
          .str "joe-learn-assessments/abc123", 7⟩ : AssessmentDoc))].filter (fun p => p.1 != "a1")) ∧
    ∀ p ∈ (getAssessments (deleteAssessment ⟨[], [("a1", ⟨.str "Quiz 1", .str "Ms. Lee", .str "u",
        .str "joe-learn-assessments/abc123", 7⟩)]⟩ "a1").state).2, p.1 ≠ "a1" :=
  c3_delete_existing_destroys_and_removes
    ⟨[], [("a1", ⟨.str "Quiz 1", .str "Ms. Lee", .str "u",
        .str "joe-learn-assessments/abc123", 7⟩)]⟩ "a1"
    ⟨.str "Quiz 1", .str "Ms. Lee", .str "u", .str "joe-learn-assessments/abc123", 7⟩
    "joe-learn-assessments/abc123" (by decide) rfl (by decide)

/-- C9: with the five other required fields truthy, POST /api/upload-video
rejects `duration` exactly when it is strictly `undefined`; every other
value — `null`, `NaN`, a non-numeric string — passes the check and is stored
verbatim in the created record. -/
theorem c9_duration_rejected_iff_undefined (st : ServerState) (b : VideoBody)
    (newId : String) (now : Nat)
    (h1 : truthy b.title = true) (h2 : truthy b.teacherName = true)
    (h3 : truthy b.subject = true) (h4 : truthy b.url = true)
    (h5 : truthy b.public_id = true) :
    ((uploadVideo st b newId now).status = 400 ↔ b.duration = JSValue.undef) ∧
    (b.duration ≠ JSValue.undef →
      (uploadVideo st b newId now).status = 201 ∧
      (uploadVideo st b newId now).created = some (newId, mkVideoDoc b now) ∧
      (uploadVideo st b newId now).state.videos = st.videos ++ [(newId, mkVideoDoc b now)] ∧
      (mkVideoDoc b now).duration = b.duration) := by
  by_cases hd : b.duration = JSValue.undef
  · constructor
    · simp [uploadVideo, videoBodyRejected, h1, h2, h3, h4, h5, hd]
    · intro hcontra
      exact absurd hd hcontra
  · have hrej : videoBodyRejected b = false := by
      simp [videoBodyRejected, h1, h2, h3, h4, h5, hd]
    constructor
    · simp [uploadVideo, hrej, hd]
    · intro _
      refine ⟨?_, ?_, ?_, rfl⟩ <;> simp [uploadVideo, hrej]

/-- C9 witness: a body with `duration: null` is accepted and `null` stored
verbatim. -/
theorem c9_witness :
    truthy (JSValue.str "t") = true ∧
    ((uploadVideo ⟨[], []⟩ ⟨.str "t", .str "n", .str "s", .str "u", .str "p", .null⟩ "v1" 3).status = 400 ↔
      (VideoBody.mk (.str "t") (.str "n") (.str "s") (.str "u") (.str "p") .null).duration = JSValue.undef) ∧
    ((uploadVideo ⟨[], []⟩ ⟨.str "t", .str "n", .str "s", .str "u", .str "p", .null⟩ "v1" 3).status = 201 ∧
      (uploadVideo ⟨[], []⟩ ⟨.str "t", .str "n", .str "s", .str "u", .str "p", .null⟩ "v1" 3).created =
        some ("v1", mkVideoDoc ⟨.str "t", .str "n", .str "s", .str "u", .str "p", .null⟩ 3) ∧
      (uploadVideo ⟨[], []⟩ ⟨.str "t", .str "n", .str "s", .str "u", .str "p", .null⟩ "v1" 3).state.videos =
        [] ++ [("v1", mkVideoDoc ⟨.str "t", .str "n", .str "s", .str "u", .str "p", .null⟩ 3)] ∧
      (mkVideoDoc ⟨.str "t", .str "n", .str "s", .str "u", .str "p", .null⟩ 3).duration = JSValue.null) := by
  have h := c9_duration_rejected_iff_undefined ⟨[], []⟩
    ⟨.str "t", .str "n", .str "s", .str "u", .str "p", .null⟩ "v1" 3
    (by decide) (by decide) (by decide) (by decide) (by decide)
  exact ⟨by decide, h.1, h.2 (by decide)⟩

/-- C2: POST /api/upload-video answers 400 and persists nothing when any of
the five text fields is absent (undefined) or `duration` is undefined; with
all fields present (truthy) and `duration: 0` it answers 201, appends the
record, and returns the full created record. -/
theorem c2_upload_video_validation (st : ServerState) (b : VideoBody)
    (newId : String) (now : Nat) :
    ((b.title = JSValue.undef ∨ b.teacherName = JSValue.undef ∨ b.subject = JSValue.undef ∨
        b.url = JSValue.undef ∨ b.public_id = JSValue.undef ∨ b.duration = JSValue.undef) →
      (uploadVideo st b newId now).status = 400 ∧
      (uploadVideo st b newId now).state = st ∧
      (uploadVideo st b newId now).created = none) ∧
    ((truthy b.title = true ∧ truthy b.teacherName = true ∧ truthy b.subject = true ∧
        truthy b.url = true ∧ truthy b.public_id = true ∧ b.duration = JSValue.num 0) →
      (uploadVideo st b newId now).status = 201 ∧
      (uploadVideo st b newId now).created = some (newId, mkVideoDoc b now) ∧
      (uploadVideo st b newId now).state.videos = st.videos ++ [(newId, mkVideoDoc b now)]) := by
  constructor
  · intro h
    have hrej : videoBodyRejected b = true := by
      rcases h with h | h | h | h | h | h <;> simp [videoBodyRejected, h, truthy]
    simp [uploadVideo, hrej]
  · rintro ⟨h1, h2, h3, h4, h5, h6⟩
    have hrej : videoBodyRejected b = false := by
      simp [videoBodyRejected, h1, h2, h3, h4, h5, h6]
    simp [uploadVideo, hrej]

/-- C2 witness: undefined `duration` is rejected without writing; `duration: 0`
is accepted. -/
theorem c2_witness :
    ((uploadVideo ⟨[], []⟩ ⟨.str "t", .str "n", .str "s", .str "u", .str "p", .undef⟩ "v1" 3).status = 400 ∧
      (uploadVideo ⟨[], []⟩ ⟨.str "t", .str "n", .str "s", .str "u", .str "p", .undef⟩ "v1" 3).state = ⟨[], []⟩ ∧
      (uploadVideo ⟨[], []⟩ ⟨.str "t", .str "n", .str "s", .str "u", .str "p", .undef⟩ "v1" 3).created = none) ∧
    ((uploadVideo ⟨[], []⟩ ⟨.str "t", .str "n", .str "s", .str "u", .str "p", .num 0⟩ "v1" 3).status = 201 ∧
      (uploadVideo ⟨[], []⟩ ⟨.str "t", .str "n", .str "s", .str "u", .str "p", .num 0⟩ "v1" 3).created =
        some ("v1", mkVideoDoc ⟨.str "t", .str "n", .str "s", .str "u", .str "p", .num 0⟩ 3) ∧
      (uploadVideo ⟨[], []⟩ ⟨.str "t", .str "n", .str "s", .str "u", .str "p", .num 0⟩ "v1" 3).state.videos =
        [] ++ [("v1", mkVideoDoc ⟨.str "t", .str "n", .str "s", .str "u", .str "p", .num 0⟩ 3)]) :=
  ⟨(c2_upload_video_validation ⟨[], []⟩ ⟨.str "t", .str "n", .str "s", .str "u", .str "p", .undef⟩
      "v1" 3).1 (by simp),
   (c2_upload_video_validation ⟨[], []⟩ ⟨.str "t", .str "n", .str "s", .str "u", .str "p", .num 0⟩
      "v1" 3).2 (by refine ⟨?_, ?_, ?_, ?_, ?_, rfl⟩ <;> decide)⟩

/-- Folding object bindings none of which carries key `k` leaves the
accumulated value unchanged. -/
theorem objGet_foldl_no_key (k : String) (l : List (String × JSValue)) (acc : JSValue)
    (h : ∀ p ∈ l, p.1 ≠ k) :
    l.foldl (fun acc p => if p.1 = k then p.2 else acc) acc = acc := by
  induction l generalizing acc with
  | nil => rfl
  | cons q l ih =>
      rw [List.foldl_cons, if_neg (h q (List.mem_cons_self q l))]
      exact ih acc (fun p hp => h p (List.mem_cons_of_mem q hp))

/-- C1 counterexample: with request body `{timestamp: 999}` at server time 0,
the signed parameter set carries the client's timestamp 999 (the spread in
`{timestamp, ...req.body}` overrides the server binding) while the 200
response returns the server timestamp 0 — the two differ, refuting the claim
that the response `timestamp` always equals the signed one. -/
theorem c1_counterexample :
    signedTimestamp 0 [("timestamp", JSValue.num 999)] = JSValue.num 999 ∧
    (generateSignature 0 [("timestamp", JSValue.num 999)] false).2 =
      SigResponse.success
        (api_sign_request (paramsToSign 0 [("timestamp", JSValue.num 999)]) api_secret)
        0 api_key cloud_name ∧
    JSValue.num 999 ≠ JSValue.num 0 :=
  ⟨rfl, rfl, by decide⟩

/-- C1 amended: for every request body that does not itself carry a
`timestamp` field, the handler signs the server-generated timestamp and the
200 response returns that same timestamp together with the signature,
`api_key` and `cloud_name`; a body that does carry `timestamp` overrides the
signed value while the response still returns the server's. -/
theorem c1_signature_timestamp_consistent (now : Int) (body : List (String × JSValue))
    (h : ∀ p ∈ body, p.1 ≠ "timestamp") :
    signedTimestamp now body = JSValue.num now ∧
    generateSignature now body false =
      (200, SigResponse.success (api_sign_request (paramsToSign now body) api_secret)
        now api_key cloud_name) := by
  constructor
  · rw [signedTimestamp, paramsToSign, objGet, List.foldl_cons, if_pos rfl]
    exact objGet_foldl_no_key "timestamp" body (JSValue.num now) h
  · rfl

/-- C1 witness: the spec's example body `{folder: "joe-learn-videos"}`. -/
theorem c1_witness :
    signedTimestamp 1111 [("folder", JSValue.str "joe-learn-videos")] = JSValue.num 1111 ∧
    generateSignature 1111 [("folder", JSValue.str "joe-learn-videos")] false =
      (200, SigResponse.success
        (api_sign_request (paramsToSign 1111 [("folder", JSValue.str "joe-learn-videos")]) api_secret)
        1111 api_key cloud_name) :=
  c1_signature_timestamp_consistent 1111 [("folder", JSValue.str "joe-learn-videos")] (by decide)

/-- C6: GET /api/videos and GET /api/assessments answer 200 with the full
contents of their collection (a permutation of every stored record, no
pagination limit) ordered by `createdAt` descending, newest first. -/
theorem c6_lists_complete_and_newest_first (st : ServerState) :
    (getVideos st).1 = 200 ∧
    List.Perm (getVideos st).2 st.videos ∧
    List.Pairwise (fun x y => y.2.createdAt ≤ x.2.createdAt) (getVideos st).2 ∧
    (getAssessments st).1 = 200 ∧
    List.Perm (getAssessments st).2 st.assessments ∧
    List.Pairwise (fun x y => y.2.createdAt ≤ x.2.createdAt) (getAssessments st).2 :=
  ⟨rfl, sortDesc_perm _ _, pairwise_sortDesc _ _,
   rfl, sortDesc_perm _ _, pairwise_sortDesc _ _⟩

/-- Characters of a pattern occurring at the head of a list are characters of
the list. -/
theorem leadsWith_subset (pat : List Char) :
    ∀ (l : List Char), leadsWith pat l = true → ∀ c ∈ pat, c ∈ l := by
  induction pat with
  | nil => intro l _ c hc; exact absurd hc (List.not_mem_nil c)
  | cons a pat ih =>
      intro l h c hc
      cases l with
      | nil => simp [leadsWith] at h
      | cons b l =>
          rw [leadsWith, Bool.and_eq_true] at h
          obtain ⟨hab, hrest⟩ := h
          rcases List.mem_cons.1 hc with rfl | hcp
          · rw [beq_iff_eq.1 hab]
            exact List.mem_cons_self b l
          · exact List.mem_cons_of_mem b (ih l hrest c hcp)

/-- Characters of a pattern occurring anywhere in a list are characters of
the list. -/
theorem occursIn_subset (pat : List Char) :
    ∀ (l : List Char), occursIn pat l = true → ∀ c ∈ pat, c ∈ l := by
  intro l
  induction l with
  | nil =>
      intro h c hc
      cases pat with
      | nil => exact absurd hc (List.not_mem_nil c)
      | cons a q => simp [occursIn, leadsWith] at h
  | cons b l ih =>
      intro h c hc
      rw [occursIn, Bool.or_eq_true] at h
      rcases h with h | h
      · exact leadsWith_subset pat (b :: l) h c hc
      · exact List.mem_cons_of_mem b (ih h c hc)

/-- A pattern holding a character the list lacks does not occur in the list. -/
theorem occursIn_eq_false_of_missing (pat l : List Char) (c : Char)
    (hc : c ∈ pat) (hl : c ∉ l) : occursIn pat l = false := by
  cases hx : occursIn pat l with
  | false => rfl
  | true => exact absurd (occursIn_subset pat l hx c hc) hl

/-- Character data of a concatenation. -/
theorem string_data_append (s t : String) : (s ++ t).data = s.data ++ t.data := by
  cases s
  cases t
  rfl

/-- The Firestore NOT_FOUND detail text always holds an underscore. -/
theorem underscore_mem_notFoundDetail (collection docId : String) :
    '_' ∈ (notFoundDetail collection docId).data := by
  rw [notFoundDetail, string_data_append, string_data_append, string_data_append]
  apply List.mem_append_left
  apply List.mem_append_left
  apply List.mem_append_left
  decide

/-- C7: a counter increment on an id matching no video document surfaces the
store-level NOT_FOUND through the global error handler as a generic 500 (not
a 404), with a constant body that does not contain the internal error
detail, and the state unchanged. -/
theorem c7_increment_missing_id_is_generic_500 (st : ServerState) (id : String)
    (h : st.videos.any (fun p => p.1 == id) = false) :
    (postView st id).status = 500 ∧
    (postView st id).status ≠ 404 ∧
    (postView st id).message = genericErrorMessage ∧
    (postView st id).state = st ∧
    (postComplete st id).status = 500 ∧
    (postComplete st id).message = genericErrorMessage ∧
    (postComplete st id).state = st ∧
    occursIn (errDetail (StoreErr.notFound (notFoundDetail "videos" id))).data
      genericErrorMessage.data = false := by
  have hupd : ∀ f, updateVideoDocs st.videos id f =
      Except.error (StoreErr.notFound (notFoundDetail "videos" id)) := by
    intro f
    simp [updateVideoDocs, h]
  refine ⟨?_, ?_, ?_, ?_, ?_, ?_, ?_, ?_⟩
  · simp [postView, hupd, globalErrorHandler]
  · simp [postView, hupd, globalErrorHandler]
  · simp [postView, hupd, globalErrorHandler]
  · simp [postView, hupd]
  · simp [postComplete, hupd, globalErrorHandler]
  · simp [postComplete, hupd, globalErrorHandler]
  · simp [postComplete, hupd]
  · exact occursIn_eq_false_of_missing _ _ '_'
      (underscore_mem_notFoundDetail "videos" id) (by decide)

/-- C7 witness: incrementing id "missing" on the empty store. -/
theorem c7_witness :
    (postView ⟨[], []⟩ "missing").status = 500 ∧
    (postView ⟨[], []⟩ "missing").status ≠ 404 ∧
    (postView ⟨[], []⟩ "missing").message = genericErrorMessage ∧
    (postView ⟨[], []⟩ "missing").state = ⟨[], []⟩ ∧
    (postComplete ⟨[], []⟩ "missing").status = 500 ∧
    (postComplete ⟨[], []⟩ "missing").message = genericErrorMessage ∧
    (postComplete ⟨[], []⟩ "missing").state = ⟨[], []⟩ ∧
    occursIn (errDetail (StoreErr.notFound (notFoundDetail "videos" "missing"))).data
      genericErrorMessage.data = false :=
  c7_increment_missing_id_is_generic_500 ⟨[], []⟩ "missing" rfl

/-- An indexed read with a member default stays inside the list. -/
theorem mem_getD {α : Type} (l : List α) (i : Nat) (d : α) (hd : d ∈ l) :
    l.getD i d ∈ l := by
  rw [List.getD]
  cases h : l.get? i with
  | none => simpa using hd
  | some a =>
      have := List.get?_mem h
      simpa using this

/-- Every digit character produced by `hexDigitChar` is hexadecimal. -/
theorem isHexChar_hexDigitChar (n : Nat) : isHexChar (hexDigitChar n) = true := by
  rw [hexDigitChar, isHexChar]
  exact decide_eq_true (mem_getD hexChars (n % 16) '0' (by decide))

/-- Every character accumulated by `natToHexAux` over a hexadecimal
accumulator is hexadecimal. -/
theorem natToHexAux_hex :
    ∀ (fuel n : Nat) (acc : List Char), (∀ c ∈ acc, isHexChar c = true) →
      ∀ c ∈ natToHexAux fuel n acc, isHexChar c = true := by
  intro fuel
  induction fuel with
  | zero => intro n acc hacc c hc; exact hacc c hc
  | succ fuel ih =>
      intro n acc hacc c hc
      rw [natToHexAux] at hc
      by_cases hn : n = 0
      · rw [if_pos hn] at hc
        exact hacc c hc
      · rw [if_neg hn] at hc
        refine ih (n / 16) _ ?_ c hc
        intro x hx
        rcases List.mem_cons.1 hx with rfl | hxa
        · exact isHexChar_hexDigitChar _
        · exact hacc x hxa

/-- Every character of a digest is hexadecimal. -/
theorem digestHex_hex (s : String) : ∀ c ∈ (digestHex s).data, isHexChar c = true := by
  intro c hc
  rw [digestHex, natToHex] at hc
  exact natToHexAux_hex 40 _ []
    (fun x hx => absurd hx (List.not_mem_nil x)) c hc

/-- The API secret (which holds a non-hexadecimal character) never occurs in
a digest. -/
theorem secret_not_in_digest (s : String) :
    occursIn api_secret.data (digestHex s).data = false := by
  refine occursIn_eq_false_of_missing _ _ '_' (by decide) ?_
  intro hmem
  exact absurd (digestHex_hex s '_' hmem) (by decide)

/-- C8: every response of POST /api/generate-signature is either the 200
success object carrying exactly `signature`, `timestamp`, `api_key`,
`cloud_name`, or the 500 failure object carrying only the constant generic
message (no partial signature); in both cases no string field of the body
contains the Cloudinary API secret. -/
theorem c8_response_never_contains_secret (now : Int) (body : List (String × JSValue))
    (fails : Bool) :
    (generateSignature now body fails =
        (200, SigResponse.success (api_sign_request (paramsToSign now body) api_secret)
          now api_key cloud_name) ∨
      generateSignature now body fails =
        (500, SigResponse.failure "Could not generate upload signature.")) ∧
    (respStrings (generateSignature now body fails).2).all
      (fun s => !occursIn api_secret.data s.data) = true := by
  cases fails with
  | true =>
      refine ⟨Or.inr rfl, ?_⟩
      have hfail : generateSignature now body true =
          (500, SigResponse.failure "Could not generate upload signature.") := rfl
      rw [hfail]
      decide
  | false =>
      refine ⟨Or.inl rfl, ?_⟩
      have hsig : occursIn api_secret.data
          (api_sign_request (paramsToSign now body) api_secret).data = false := by
        rw [api_sign_request]
        exact secret_not_in_digest _
      simp [generateSignature, respStrings, hsig]
      constructor <;> decide

/-- Counting view requests: a view at the head adds one. -/
theorem countViews_view_cons (rest : List CounterOp) :
    countViews (CounterOp.view :: rest) = countViews rest + 1 := by
  simp [countViews]

/-- Counting view requests: a completion at the head adds nothing. -/
theorem countViews_complete_cons (rest : List CounterOp) :
    countViews (CounterOp.complete :: rest) = countViews rest := by
  simp [countViews]

/-- Counting completion requests: a view at the head adds nothing. -/
theorem countCompletes_view_cons (rest : List CounterOp) :
    countCompletes (CounterOp.view :: rest) = countCompletes rest := by
  simp [countCompletes]

/-- Counting completion requests: a completion at the head adds one. -/
theorem countCompletes_complete_cons (rest : List CounterOp) :
    countCompletes (CounterOp.complete :: rest) = countCompletes rest + 1 := by
  simp [countCompletes]

/-- Updating the matching association-list entry in place commutes with
looking it up. -/
theorem find?_map_update {l : List (String × VideoDoc)} {id j : String} {d : VideoDoc}
    (f : VideoDoc → VideoDoc)
    (h : l.find? (fun p => p.1 == id) = some (j, d)) :
    (l.map (fun p => if p.1 == id then (p.1, f p.2) else p)).find? (fun p => p.1 == id) =
      some (j, f d) := by
  induction l with
  | nil => simp at h
  | cons a l ih =>
      by_cases ha : (a.1 == id) = true
      · simp only [List.find?_cons, ha, if_true] at h
        obtain rfl := Option.some.inj h
        have hj : j = id := by simpa using ha
        subst hj
        simp [List.find?_cons]
      · have ha2 : (a.1 == id) = false := by simpa using ha
        simp only [List.find?_cons, ha2, Bool.false_eq_true, if_false] at h
        simp only [List.map_cons, ha2, Bool.false_eq_true, if_false, List.find?_cons]
        exact ih h

/-- When the video exists, POST /videos/:id/view answers 200 and the new state
is the old one with exactly the matching entry's `views` raised by one. -/
theorem postView_found (st : ServerState) (id : String) (e : String × VideoDoc)
    (h : st.videos.find? (fun p => p.1 == id) = some e) :
    postView st id =
      { status := 200, message := "View count updated successfully.",
        state := { st with videos := st.videos.map (fun p => if p.1 == id then (p.1, { p.2 with views := p.2.views + 1 }) else p) } } := by
  have hany := find?_imp_any h
  simp [postView, updateVideoDocs, hany]

/-- When the video exists, POST /videos/:id/complete answers 200 and the new
state raises exactly the matching entry's `completions` by one. -/
theorem postComplete_found (st : ServerState) (id : String) (e : String × VideoDoc)
    (h : st.videos.find? (fun p => p.1 == id) = some e) :
    postComplete st id =
      { status := 200, message := "Completion count updated successfully.",
        state := { st with videos := st.videos.map (fun p => if p.1 == id then (p.1, { p.2 with completions := p.2.completions + 1 }) else p) } } := by
  have hany := find?_imp_any h
  simp [postComplete, updateVideoDocs, hany]

/-- After any interleaved sequence of view/complete increments on an existing
video, its `views` rose by the number of view requests and its `completions`
by the number of completion requests, all other fields untouched. -/
theorem applyOps_find (ops : List CounterOp) :
    ∀ (st : ServerState) (id j : String) (d : VideoDoc),
      st.videos.find? (fun p => p.1 == id) = some (j, d) →
      (applyOps st id ops).videos.find? (fun p => p.1 == id) =
        some (j, { d with views := d.views + countViews ops,
                          completions := d.completions + countCompletes ops }) := by
  induction ops with
  | nil =>
      intro st id j d h
      cases d
      simpa [applyOps, countViews, countCompletes] using h
  | cons op rest ih =>
      intro op_st id j d h
      cases op with
      | view =>
          have hstep : (applyOp op_st id CounterOp.view).videos.find? (fun p => p.1 == id) =
              some (j, { d with views := d.views + 1 }) := by
            simp only [applyOp]
            rw [postView_found op_st id (j, d) h]
            exact find?_map_update (fun v => { v with views := v.views + 1 }) h
          have hrest := ih _ id j _ hstep
          simp only [applyOps]
          rw [hrest]
          cases d
          simp [countViews_view_cons, countCompletes_view_cons]
          omega
      | complete =>
          have hstep : (applyOp op_st id CounterOp.complete).videos.find? (fun p => p.1 == id) =
              some (j, { d with completions := d.completions + 1 }) := by
            simp only [applyOp]
            rw [postComplete_found op_st id (j, d) h]
            exact find?_map_update (fun v => { v with completions := v.completions + 1 }) h
          have hrest := ih _ id j _ hstep
          simp only [applyOps]
          rw [hrest]
          cases d
          simp [countViews_complete_cons, countCompletes_complete_cons]
          omega

/-- C4: `views` and `completions` are initialized to 0 at creation; each
POST /videos/:id/view (resp. /complete) on an existing video answers 200 and
raises exactly that record's counter by one, changing nothing else; hence
after any interleaved sequence of K increment requests the counter equals its
initial value plus K, and from creation onwards is never negative. -/
theorem c4_counters_initialized_and_incremented (st : ServerState) (b : VideoBody)
    (newId i : String) (now : Nat) (d0 : VideoDoc) (id j : String) (d : VideoDoc)
    (ops : List CounterOp) :
    ((uploadVideo st b newId now).created = some (i, d0) →
      d0.views = 0 ∧ d0.completions = 0) ∧
    (st.videos.find? (fun p => p.1 == id) = some (j, d) →
      (postView st id = { status := 200, message := "View count updated successfully.", state := { st with videos := st.videos.map (fun p => if p.1 == id then (p.1, { p.2 with views := p.2.views + 1 }) else p) } }) ∧
      (postComplete st id = { status := 200, message := "Completion count updated successfully.", state := { st with videos := st.videos.map (fun p => if p.1 == id then (p.1, { p.2 with completions := p.2.completions + 1 }) else p) } }) ∧
      ((applyOps st id ops).videos.find? (fun p => p.1 == id) =
        some (j, { d with views := d.views + countViews ops, completions := d.completions + countCompletes ops })) ∧
      (d.views = 0 → d.completions = 0 →
        ∃ d2, (applyOps st id ops).videos.find? (fun p => p.1 == id) = some (j, d2) ∧
          d2.views = countViews ops ∧ d2.completions = countCompletes ops ∧
          0 ≤ d2.views ∧ 0 ≤ d2.completions)) := by
  constructor
  · intro hc
    by_cases hrej : videoBodyRejected b = true
    · simp [uploadVideo, hrej] at hc
    · have hrej2 : videoBodyRejected b = false := by simpa using hrej
      simp [uploadVideo, hrej2] at hc
      obtain ⟨-, rfl⟩ := hc
      exact ⟨rfl, rfl⟩
  · intro hfind
    refine ⟨postView_found st id (j, d) hfind, postComplete_found st id (j, d) hfind,
      applyOps_find ops st id j d hfind, ?_⟩
    intro hv hcom
    refine ⟨_, applyOps_find ops st id j d hfind, ?_, ?_, ?_, ?_⟩
    · simp [hv]
    · simp [hcom]
    · simp [hv]
    · simp [hcom]

/-- C4 witness: a video created with zeroed counters, then the sequence
view, complete, view yields views 2 and completions 1. -/
theorem c4_witness :
    ((uploadVideo ⟨[("v1", ⟨.str "t", .str "s", .str "n", .str "u", .str "p", .num 0, 0, 0, 3⟩)], []⟩
        ⟨.str "t", .str "n", .str "s", .str "u", .str "p", .num 0⟩ "v2" 9).created =
      some ("v2", mkVideoDoc ⟨.str "t", .str "n", .str "s", .str "u", .str "p", .num 0⟩ 9)) ∧
    (mkVideoDoc ⟨.str "t", .str "n", .str "s", .str "u", .str "p", .num 0⟩ 9).views = 0 ∧
    (mkVideoDoc ⟨.str "t", .str "n", .str "s", .str "u", .str "p", .num 0⟩ 9).completions = 0 ∧
    ((⟨[("v1", ⟨.str "t", .str "s", .str "n", .str "u", .str "p", .num 0, 0, 0, 3⟩)], []⟩ : ServerState).videos.find?
        (fun p => p.1 == "v1") =
      some ("v1", ⟨.str "t", .str "s", .str "n", .str "u", .str "p", .num 0, 0, 0, 3⟩)) ∧
    ((applyOps ⟨[("v1", ⟨.str "t", .str "s", .str "n", .str "u", .str "p", .num 0, 0, 0, 3⟩)], []⟩ "v1"
        [CounterOp.view, CounterOp.complete, CounterOp.view]).videos.find? (fun p => p.1 == "v1") =
      some ("v1", ⟨.str "t", .str "s", .str "n", .str "u", .str "p", .num 0, 2, 1, 3⟩)) := by
  have h := c4_counters_initialized_and_incremented
    ⟨[("v1", ⟨.str "t", .str "s", .str "n", .str "u", .str "p", .num 0, 0, 0, 3⟩)], []⟩
    ⟨.str "t", .str "n", .str "s", .str "u", .str "p", .num 0⟩ "v2" "v2" 9
    (mkVideoDoc ⟨.str "t", .str "n", .str "s", .str "u", .str "p", .num 0⟩ 9)
    "v1" "v1" ⟨.str "t", .str "s", .str "n", .str "u", .str "p", .num 0, 0, 0, 3⟩
    [CounterOp.view, CounterOp.complete, CounterOp.view]
  have h1 := h.1 rfl
  have h2 := h.2 rfl
  exact ⟨rfl, h1.1, h1.2, rfl, h2.2.2.1⟩

end JoeLearn
